import Mathlib

/-!
Verification of the SotC graphics data-processing core (src/slp.py, src/soz.py,
src/cmo.py) against its natural-language specification.

The embedding models text files at the token level: a file is a
`List (List ℚ)` (or `List (List ℤ)`) of whitespace-split numeric tokens per
line, machine floats are modelled as exact rationals, and numpy masked arrays
are modelled as lists of `Option ℚ` (`none` = masked).
-/

/-- `np.ma.masked_where(cond, x)` at a single cell: if the condition holds the
cell becomes masked, otherwise it is left as it was. -/
def maskedWhere (b : Bool) (x : Option ℚ) : Option ℚ :=
  if b then none else x

/-- `np.ma.count` along an axis, at a single cell: the number of non-masked
entries among the contributing values. -/
def maCount (l : List (Option ℚ)) : ℕ :=
  (l.filterMap id).length

/-- Sum of the non-masked entries. -/
def maSum (l : List (Option ℚ)) : ℚ :=
  (l.filterMap id).sum

/-- `np.ma.mean` along an axis, at a single cell: the mean over the non-masked
entries, masked when there are none. -/
def maMean (l : List (Option ℚ)) : Option ℚ :=
  if maCount l = 0 then none else some (maSum l / maCount l)

/-- `np.ma.masked_where(data <= thresh, data)` at a single cell
(sentinel-based missing-value masking). -/
def maskSentinel (thresh : ℚ) (l : List ℚ) : List (Option ℚ) :=
  l.map (fun x => if x ≤ thresh then none else some x)

/-!
## `np.genfromtxt`

`np.genfromtxt(filename, skip_header=h, skip_footer=f)` drops `h` lines from
the start and `f` lines from the end, then requires every remaining line to
split into the same number of numeric tokens as the first remaining line;
a ragged line raises `ValueError`.  The tokens themselves are modelled as
already-numeric rationals.

A successful parse is squeezed: a single data row, a single column, or an
empty result comes back as a 1-D array, everything else as a 2-D array.
The callers' `all_data[:, 0]` (`IndexError`) and `for row in indata:
... [r for r in row]` (`TypeError` on scalars) behave differently on the
two shapes, so the shape is part of the model.
-/

/-- The shape of a `genfromtxt` result: a 1-D array of scalars or a 2-D
array of rows. -/
inductive NpArray where
  | oneD : List ℚ → NpArray
  | twoD : List (List ℚ) → NpArray
deriving DecidableEq

/-- The rectangularity requirement of `np.genfromtxt`: every row must have as
many tokens as the first row, else `ValueError`. -/
def rectCheck : List (List ℚ) → Except String (List (List ℚ))
  | [] => .ok []
  | r0 :: rest =>
      if (r0 :: rest).all (fun r => r.length = r0.length) then .ok (r0 :: rest)
      else .error "ValueError"

/-- numpy's squeeze of a `genfromtxt` result: exactly one data row (also a
lone value), exactly one column, or no data at all yields a 1-D array;
otherwise the rows form a 2-D array. -/
def npSqueeze : List (List ℚ) → NpArray
  | [] => .oneD []
  | [r] => .oneD r
  | r0 :: r1 :: t =>
      if (r0 :: r1 :: t).all (fun r => r.length = 1)
      then .oneD ((r0 :: r1 :: t).map (fun r => r.getD 0 0))
      else .twoD (r0 :: r1 :: t)

/-- Model of `np.genfromtxt` on tokenized lines: header/footer trim,
rectangularity check, squeeze. -/
def genfromtxt (lines : List (List ℚ)) (skipHeader skipFooter : ℕ) :
    Except String NpArray :=
  (rectCheck ((lines.drop skipHeader).take
    ((lines.drop skipHeader).length - skipFooter))).map npSqueeze

/-!
## GridTextParser — `read_data` in src/soz.py

The source preallocates `data = np.ma.zeros((n_lat, n_lon))`, walks the rows
of the dump appending each row's tokens to an accumulator `this_lat`, and
whenever the accumulator length equals the longitude count commits it as the
next latitude band (`data[tl, :] = this_lat; tl += 1`) and resets it.  Tokens
left in the accumulator at end of input are silently discarded; committing a
band beyond `n_lat` would raise `IndexError`.  Finally
`np.ma.masked_where(data <= -999.000, data)` is applied.
-/

/-- The band-accumulation loop of `read_data` (src/soz.py lines 46-56).
`data` is the preallocated grid, `acc` the current partial band, `tl` the next
band index. -/
def fillGrid (nlat nlon : ℕ) :
    List (List ℚ) → List (List ℚ) → List ℚ → ℕ → Except String (List (List ℚ))
  | [], data, _acc, _tl => .ok data
  | row :: rest, data, acc, tl =>
      let acc2 := acc ++ row
      if acc2.length = nlon then
        if tl < nlat then fillGrid nlat nlon rest (data.set tl acc2) [] (tl + 1)
        else .error "IndexError"
      else fillGrid nlat nlon rest data acc2 tl

/-- The zero grid `np.ma.zeros((nlat, nlon))`. -/
def zerosGrid (nlat nlon : ℕ) : List (List ℚ) :=
  List.replicate nlat (List.replicate nlon (0 : ℚ))

/-- The row iteration of `read_data` (`for row in indata:
this_lat += [r for r in row]`), which is shape-dependent: a 2-D array yields
its rows; a non-empty 1-D array yields `np.float64` scalars whose inner
iteration raises `TypeError`; an empty array runs the loop body zero times. -/
def gridRowsOf : NpArray → Except String (List (List ℚ))
  | .oneD [] => .ok []
  | .oneD (_ :: _) => .error "TypeError"
  | .twoD rows => .ok rows

/-- `read_data` of src/soz.py, generic in the shape declared by the axis
constants (`latitudes.shape[0]`, `longitudes.shape[0]`) and the header skip:
`np.genfromtxt`, the shape-dependent row iteration, the band-accumulation
loop, and sentinel masking at `-999.0`. -/
def parseGridDump (nlat nlon skipHeader : ℕ) (lines : List (List ℚ)) :
    Except String (List (List (Option ℚ))) :=
  (genfromtxt lines skipHeader 0).bind fun arr =>
    (gridRowsOf arr).bind fun rows =>
      (fillGrid nlat nlon rows (zerosGrid nlat nlon) [] 0).map
        (fun data => data.map (maskSentinel (-999)))

/-- `read_data` of src/soz.py with the source's hard-coded axes:
`latitudes = np.arange(-89.5, 90.5, 1.)` (180 bands),
`longitudes = np.arange(0.625, 360.625, 1.25)` (288 columns),
`skip_header=4`. -/
def read_data (lines : List (List ℚ)) : Except String (List (List (Option ℚ))) :=
  parseGridDump 180 288 4 lines

/-- Total number of scalar tokens in a list of rows. -/
def tokenCount (rows : List (List ℚ)) : ℕ :=
  (rows.map List.length).sum

/-!
## MonthlyBlockParser — `read_hadslp` in src/slp.py

The source iterates the lines of the file.  A line with exactly two tokens is
a `(year, month)` header: it appends the previous block (when not on the first
line) and starts a new one; all other lines are appended to the current
block's row buffer.  A body line before any header, or an empty file, would
reference `this_month` before assignment (Python `NameError`).  After the
loop the final block is appended, the ragged list is converted by
`np.array(...).astype(int) / 100.`, axes 1 and 2 are swapped, latitudes are
reversed, and times are day offsets of each header's `datetime(y, m, 1)`
from the first header's.
-/

/-- Python's leap-year rule (`calendar.isleap`, as used by `datetime`). -/
def isLeap (y : ℤ) : Bool :=
  y % 4 = 0 && (y % 100 ≠ 0 || y % 400 = 0)

/-- Days in month `m` of year `y` (proleptic Gregorian, as `datetime`). -/
def daysInMonth (y m : ℤ) : ℤ :=
  if m = 2 then (if isLeap y then 29 else 28)
  else if m = 4 ∨ m = 6 ∨ m = 9 ∨ m = 11 then 30
  else 31

/-- Days in year `y` strictly before the first of month `m`. -/
def daysBeforeMonth (y m : ℤ) : ℤ :=
  ((List.range (m - 1).toNat).map (fun k => daysInMonth y ((k : ℤ) + 1))).sum

/-- Ordinal day number of `datetime(y, m, 1)` (Python `date.toordinal`
semantics up to a constant offset, which cancels in differences): full years
before `y` plus leap days plus days before month `m`. -/
def dateOrdinal (y m : ℤ) : ℤ :=
  365 * (y - 1) + (y - 1) / 4 - (y - 1) / 100 + (y - 1) / 400 + daysBeforeMonth y m

/-- The per-line loop of `read_hadslp` (src/slp.py lines 66-77), after the
first header has been seen: accumulates headers, closed blocks and the
current block's rows. -/
def hadslpLoop :
    List (List ℤ) → List (ℤ × ℤ) → List (List (List ℤ)) → List (List ℤ) →
      List (ℤ × ℤ) × List (List (List ℤ))
  | [], hdrs, done, cur => (hdrs, done ++ [cur])
  | l :: rest, hdrs, done, cur =>
      if l.length = 2 then
        hadslpLoop rest (hdrs ++ [(l.getD 0 0, l.getD 1 0)]) (done ++ [cur]) []
      else
        hadslpLoop rest hdrs done (cur ++ [l])

/-- Header/block extraction of `read_hadslp`: the first line must be a
two-token header (otherwise `this_month` is referenced before assignment —
`NameError`), after which `hadslpLoop` runs and the final block is appended. -/
def parseBlocks (lines : List (List ℤ)) :
    Except String (List (ℤ × ℤ) × List (List (List ℤ))) :=
  match lines with
  | [] => .error "NameError"
  | l :: rest =>
      if l.length = 2 then .ok (hadslpLoop rest [(l.getD 0 0, l.getD 1 0)] [] [])
      else .error "NameError"

/-- `np.array(all_months).astype(int)`: succeeds only when the nested list is
rectangular (same number of rows per block, same number of tokens per row);
a ragged nesting raises `ValueError`. -/
def astype3d (blocks : List (List (List ℤ))) :
    Except String (List (List (List ℤ))) :=
  match blocks with
  | [] => .ok []
  | b0 :: _ =>
      if blocks.all (fun b =>
          b.length = b0.length && b.all (fun r => r.length = (b0.headD []).length))
      then .ok blocks
      else .error "ValueError"

/-- `np.swapaxes(block, 0, 1)` for a rectangular 2-D block. -/
def transposeMat (m : List (List ℚ)) : List (List ℚ) :=
  (List.range (m.headD []).length).map (fun j => m.map (fun r => r.getD j 0))

/-- Times of the blocks: day offsets of each header's `datetime(y, m, 1)`
from the first header's `datetime(y0, m0, 1)` (src/slp.py line 90). -/
def blockTimes (hdrs : List (ℤ × ℤ)) : List ℤ :=
  match hdrs with
  | [] => []
  | h0 :: _ => hdrs.map (fun h => dateOrdinal h.1 h.2 - dateOrdinal h0.1 h0.2)

/-- Strictly increasing integer sequence, as a Boolean check. -/
def strictIncrZ : List ℤ → Bool
  | [] => true
  | [_] => true
  | a :: b :: t => a < b && strictIncrZ (b :: t)

/-- A time-stamped series of 2-D grids (the normalized `GridSeries`). -/
structure GridSeries where
  times : List ℤ
  data : List (List (List ℚ))
deriving DecidableEq

/-- Modelled from the spec: `utils.make_iris_cube_3d` is repository code not
under src/.  Per the `GridSeries` invariant ("timestamps strictly increasing")
and §4.2 ("Fails with FormatError if ... blocks are non-monotonic in time"),
it rejects a time axis that is not strictly increasing and otherwise packages
the data and times. -/
def make_iris_cube_3d (data : List (List (List ℚ))) (times : List ℤ) :
    Except String GridSeries :=
  if strictIncrZ times then .ok { times := times, data := data }
  else .error "FormatError"

/-- `read_hadslp` of src/slp.py: block extraction, integer conversion and
division by 100, axis swap, latitude reversal, and cube construction with
day-offset times. -/
def read_hadslp (lines : List (List ℤ)) : Except String GridSeries :=
  (parseBlocks lines).bind fun hb =>
    (astype3d hb.2).bind fun arr =>
      let allMonths := arr.map (fun b => b.map (fun r => r.map (fun z => (z : ℚ) / 100)))
      let swapped := allMonths.map transposeMat
      let inverted := swapped.map (fun b => b.map List.reverse)
      make_iris_cube_3d inverted (blockTimes hb.1)

/-!
## SeriesTextParser — `read_soi` in src/slp.py

`read_soi` tries `np.genfromtxt(filename, skip_header=9)`; on `ValueError`
it retries once with `skip_footer=1`.  Column 0 is the year, columns 1..
are the monthly values; the time axis is
`np.arange(years[0], years[-1]+1, 1/12.)` and the values are the flattened
data columns.
-/

/-- `np.arange(start, stop, step)` over exact rationals: `⌈(stop-start)/step⌉`
entries `start + k*step`. -/
def arangeQ (start stop step : ℚ) : List ℚ :=
  (List.range (⌈(stop - start) / step⌉.toNat)).map (fun k : ℕ => start + (k : ℚ) * step)

/-- A named time series (`utils.Timeseries`). -/
structure Timeseries where
  times : List ℚ
  data : List ℚ
deriving DecidableEq

/-- The body of `read_soi` after a successful `genfromtxt` (src/slp.py
lines 127-132): year column, remaining data columns, arange time axis,
flattened values. -/
def soiFrom (rows : List (List ℚ)) : Timeseries :=
  let years := rows.map (fun r => r.getD 0 0)
  let data := rows.map (fun r => r.drop 1)
  { times := arangeQ (years.getD 0 0) (years.getLastD 0 + 1) (1 / 12)
    data := data.flatten }

/-- `read_soi` of src/slp.py: strict parse with `skip_header=9`, retrying
once with `skip_footer=1` on `ValueError`.  The `all_data[:, 0]` indexing
that follows raises `IndexError` when the surviving parse produced a 1-D
(single-row or single-column) array; that indexing sits after the
`try/except`, so the `IndexError` is never caught. -/
def read_soi (lines : List (List ℚ)) : Except String Timeseries :=
  match genfromtxt lines 9 0 with
  | .ok (.twoD rows) => .ok (soiFrom rows)
  | .ok (.oneD _) => .error "IndexError"
  | .error _ =>
      match genfromtxt lines 9 1 with
      | .ok (.twoD rows) => .ok (soiFrom rows)
      | .ok (.oneD _) => .error "IndexError"
      | .error e => .error e

/-!
## ClimatologyEngine — src/slp.py lines 359-367

`clim_cube.data.reshape(-1, 12, nlat, nlon)` (which raises `ValueError`
unless the number of time steps is a multiple of 12), then
`np.ma.mean(clim_data, axis=0)`, `np.ma.count(clim_data, axis=0)` and
`np.ma.masked_where(nyears <= 15, climatology)`.

A time step is a masked 2-D grid `List (List (Option ℚ))` (lat × lon).
-/

/-- Group a flat list into consecutive chunks of 12 (the `reshape(-1, 12, ...)`
grouping); used only when the length is a multiple of 12. -/
def group12Aux {α : Type} : List α → List α → List (List α)
  | [], acc => if acc.isEmpty then [] else [acc]
  | x :: t, acc =>
      if acc.length = 11 then (acc ++ [x]) :: group12Aux t []
      else group12Aux t (acc ++ [x])

/-- Consecutive chunks of 12. -/
def group12 {α : Type} (l : List α) : List (List α) :=
  group12Aux l []

/-- One (sub-period, cell) of the climatology (src/slp.py lines 365-367):
the `np.ma.mean` over the contributing years, masked where the
`np.ma.count` of contributing years is `<= minYears`. -/
def climatologyCell (vals : List (Option ℚ)) (minYears : ℕ) : Option ℚ :=
  maskedWhere (decide (maCount vals ≤ minYears)) (maMean vals)

/-- The values contributed by each year of the (already grouped-by-12)
reference window to sub-period `m`, cell `(i, j)`. -/
def yearSliceOf (groups : List (List (List (List (Option ℚ))))) (m i j : ℕ) :
    List (Option ℚ) :=
  groups.map (fun yr => ((yr.getD m []).getD i []).getD j none)

/-- The per-sub-period climatology grids built from the grouped reference
window, with the source's threshold `min_years = 15`. -/
def mkClim (nlat nlon : ℕ) (groups : List (List (List (List (Option ℚ))))) :
    List (List (List (Option ℚ))) :=
  (List.range 12).map (fun m =>
    (List.range nlat).map (fun i =>
      (List.range nlon).map (fun j =>
        climatologyCell (yearSliceOf groups m i j) 15)))

/-- The climatology computation of src/slp.py lines 359-367: fails (numpy
`ValueError` from `reshape`) unless the reference window's time-step count is
a multiple of 12, otherwise the per-month masked means. -/
def computeClimatology (d : List (List (List (Option ℚ)))) :
    Option (List (List (List (Option ℚ)))) :=
  if d.length % 12 = 0 then
    some (mkClim (d.headD []).length ((d.headD []).headD []).length (group12 d))
  else none

/-- The values for sub-period `m`, cell `(i, j)` across the years of an
ungrouped reference window. -/
def yearSlice (d : List (List (List (Option ℚ)))) (m i j : ℕ) :
    List (Option ℚ) :=
  yearSliceOf (group12 d) m i j

/-!
## AnomalyCompositor — src/slp.py lines 374-379 and 396-399

Annual aggregate: `final_year_cube.collapsed(['time'], iris.analysis.MEAN)`
(a masked mean over the 12 sub-period anomalies), then
`np.ma.masked_where(nmonths <= 6, ...)` with
`nmonths = np.ma.count(final_year_cube.data, axis=0)`.

Tiling: `climatology = np.tile(climatology, ((cube.data.shape[0]/12)+1, 1, 1))`
(Python 2 floor division) and
`anoms.data = anoms.data - climatology[0:anoms.data.shape[0], :, :]`.
Both are modelled per spatial cell: a time series of `Option ℚ` at one cell.
-/

/-- One cell of the annual aggregate (src/slp.py lines 377-379): masked mean
over the sub-period anomalies, masked where the count of non-masked
sub-periods is `<= minObs`. -/
def annualCell (vals : List (Option ℚ)) (minObs : ℕ) : Option ℚ :=
  maskedWhere (decide (maCount vals ≤ minObs)) (maMean vals)

/-- Masked-array subtraction at one cell: masked if either operand is. -/
def maskedSub : Option ℚ → Option ℚ → Option ℚ
  | some a, some b => some (a - b)
  | _, _ => none

/-- `np.tile(clim, ((n/12)+1, 1, 1))` at one cell: the 12-entry climatology
repeated `n/12 + 1` times (`n` the target length, `/` floor division). -/
def tileClim (clim : List (Option ℚ)) (n : ℕ) : List (Option ℚ) :=
  (List.replicate (n / 12 + 1) clim).flatten

/-- `anoms.data = anoms.data - climatology[0:anoms.data.shape[0], :, :]`
at one cell (src/slp.py lines 396-399): elementwise masked subtraction of the
tiled climatology truncated to the target length. -/
def anomsData (target clim : List (Option ℚ)) : List (Option ℚ) :=
  List.zipWith maskedSub target ((tileClim clim target.length).take target.length)

/-!
## Concrete example inputs used by the claim theorems
-/

/-- A 12-month, one-cell reference window with one contributing year. -/
def exClimWindow : List (List (List (Option ℚ))) :=
  List.replicate 12 [[some 1]]

/-- Twelve sub-period anomalies of which 7 are masked (5 contributors). -/
def exAnoms5 : List (Option ℚ) :=
  [some 1, some 2, some 3, some 4, some 5,
   none, none, none, none, none, none, none]

/-- Twelve sub-period anomalies of which 5 are masked (7 contributors). -/
def exAnoms7 : List (Option ℚ) :=
  [some 1, some 2, some 3, some 4, some 5, some 6, some 7,
   none, none, none, none, none]

/-- A 30-entry target series with distinct markers. -/
def exTarget30 : List (Option ℚ) :=
  (List.range 30).map (fun k : ℕ => some (k : ℚ))

/-- A 12-entry climatology with a distinct marker per cycle position. -/
def exClim12 : List (Option ℚ) :=
  (List.range 12).map (fun m : ℕ => some (100 + (m : ℚ)))

/-- A dump for a declared 3 x 3 grid (4 header lines) that is missing one
entire 3-token line: 6 tokens instead of 9, in two rectangular body lines
(two multi-column rows, so the parsed array stays 2-D). -/
def exGridDumpMissingRow : List (List ℚ) :=
  [[], [], [], [], [1, 2, 3], [4, 5, 6]]

/-- A dump for a declared 2 x 3 grid with one fewer token than required,
making the final line ragged. -/
def exGridDumpOneShort : List (List ℚ) :=
  [[], [], [], [], [1, 2, 3], [4, 5]]

/-- A valid dump for a declared 2 x 3 grid. -/
def exGridDumpFull : List (List ℚ) :=
  [[], [], [], [], [1, 2, 3], [4, 5, 6]]

/-- A two-block input whose headers `(2016, 1)` then `(2015, 12)` are out of
order. -/
def exHadslpBad : List (List ℤ) :=
  [[2016, 1], [101, 102, 103], [104, 105, 106],
   [2015, 12], [201, 202, 203], [204, 205, 206]]

/-- A two-block input with headers `(2015, 12)` then `(2016, 1)`. -/
def exHadslpGood : List (List ℤ) :=
  [[2015, 12], [101, 102, 103], [104, 105, 106],
   [2016, 1], [201, 202, 203], [204, 205, 206]]

/-- Nine skipped SOI header lines. -/
def soiHeaderJunk : List (List ℚ) :=
  [[], [], [], [], [], [], [], [], []]

/-- An SOI body of three rows whose final row has one MORE column than the
prior rows (not an incomplete trailing row); the retry leaves two rows, so
its result stays 2-D. -/
def exSoiExtraCol : List (List ℚ) :=
  soiHeaderJunk ++
    [[1990, 1, 2, 3, 4, 5, 6, 7, 8, 9, 10, 11, 12],
     [1991, 13, 14, 15, 16, 17, 18, 19, 20, 21, 22, 23, 24],
     [1992, 25, 26, 27, 28, 29, 30, 31, 32, 33, 34, 35, 36, 37]]

/-- An SOI body of three rows whose final row is incomplete (7 columns
against 13); the retry leaves two rows, so its result stays 2-D. -/
def exSoiShortFooter : List (List ℚ) :=
  soiHeaderJunk ++
    [[1990, 1, 2, 3, 4, 5, 6, 7, 8, 9, 10, 11, 12],
     [1991, 13, 14, 15, 16, 17, 18, 19, 20, 21, 22, 23, 24],
     [1992, 25, 26, 27, 28, 29, 30]]

/-- An SOI body with a missing year: rows for 1990 and 1992, no 1991. -/
def exSoiGapYear : List (List ℚ) :=
  soiHeaderJunk ++
    [[1990, 1, 2, 3, 4, 5, 6, 7, 8, 9, 10, 11, 12],
     [1992, 13, 14, 15, 16, 17, 18, 19, 20, 21, 22, 23, 24]]

/-- A contiguous two-year SOI body (1990, 1991). -/
def exSoiContiguous : List (List ℚ) :=
  soiHeaderJunk ++
    [[1990, 1, 2, 3, 4, 5, 6, 7, 8, 9, 10, 11, 12],
     [1991, 13, 14, 15, 16, 17, 18, 19, 20, 21, 22, 23, 24]]

/-!
## General lemmas
-/

/-- A cell of `masked_where(count <= minYears, ma.mean(...))` is masked exactly
when the contributing count is at most the threshold. -/
lemma climatologyCell_eq_none_iff (vals : List (Option ℚ)) (my : ℕ) :
    climatologyCell vals my = none ↔ maCount vals ≤ my := by
  unfold climatologyCell maskedWhere maMean
  by_cases h : maCount vals ≤ my
  · simp [h]
  · have h0 : maCount vals ≠ 0 := by omega
    simp [h, h0]

/-- `getD` on a mapped range evaluates the function. -/
lemma getD_range_map {α : Type} (f : ℕ → α) (n m : ℕ) (d : α) (h : m < n) :
    ((List.range n).map f).getD m d = f m := by
  rw [List.getD_eq_getElem?_getD, List.getElem?_map, List.getElem?_range h]
  rfl

/-!
## C9 and C1: climatology
-/

/-- C9: the climatology computation reshapes the reference window into groups
of 12 months, so it produces a result exactly when the number of time steps
is a multiple of 12; for a partial-year window the reshape fails and no
climatology is produced. -/
theorem computeClimatology_isSome_iff_12_dvd (d : List (List (List (Option ℚ)))) :
    (computeClimatology d).isSome = true ↔ d.length % 12 = 0 := by
  unfold computeClimatology
  by_cases h : d.length % 12 = 0 <;> simp [h]

/-- C1: a (sub-period, cell) of the computed climatology is masked exactly when
the count of contributing (non-masked) years is at most `min_years = 15`;
in particular exactly 15 contributing years is masked and 16 is not. -/
theorem climatology_mask_iff_count_le_min_years
    (d clim : List (List (List (Option ℚ))))
    (hc : computeClimatology d = some clim) (m i j : ℕ) (hm : m < 12)
    (hi : i < (d.headD []).length) (hj : j < ((d.headD []).headD []).length) :
    ((clim.getD m []).getD i []).getD j none = none ↔
      maCount (yearSlice d m i j) ≤ 15 := by
  unfold computeClimatology at hc
  by_cases h12 : d.length % 12 = 0
  · rw [if_pos h12] at hc
    cases hc
    unfold mkClim
    rw [getD_range_map _ _ _ _ hm, getD_range_map _ _ _ _ hi,
      getD_range_map _ _ _ _ hj]
    exact climatologyCell_eq_none_iff _ _
  · rw [if_neg h12] at hc
    exact absurd hc (by simp)

/-- Witness for C1 at a concrete reference window. -/
theorem climatology_mask_iff_count_le_min_years_witness :
    ((((computeClimatology exClimWindow).getD []).getD 0 []).getD 0 []).getD 0 none
        = none ↔
      maCount (yearSlice exClimWindow 0 0 0) ≤ 15 :=
  climatology_mask_iff_count_le_min_years exClimWindow
    ((computeClimatology exClimWindow).getD []) (by decide) 0 0 0
    (by decide) (by decide) (by decide)

/-!
## C3: annual aggregate masking
-/

/-- Counterexample to C3 as stated: with 12 sub-period anomalies of which 7
are masked (5 non-masked contributors), the annual aggregate at
`min_observations = 6` is masked, not unmasked (5 ≤ 6, and the code masks on
`count <= min_observations`).  It is masked at `min_observations = 7` too. -/
theorem annual_mask_claim_counterexample :
    exAnoms5.length = 12 ∧ maCount exAnoms5 = 5 ∧
    annualCell exAnoms5 6 = none ∧ annualCell exAnoms5 7 = none := by
  decide

/-- C3 amended: for an annual aggregate built from 12 sub-period anomalies of
which 5 are masked (7 non-masked contributors), the output is unmasked when
`min_observations = 6` and masked when `min_observations = 7`. -/
theorem annual_mask_boundary_amended :
    exAnoms7.length = 12 ∧ maCount exAnoms7 = 7 ∧
    (annualCell exAnoms7 6).isSome = true ∧ annualCell exAnoms7 7 = none := by
  decide

/-!
## C2: climatology tiling alignment
-/

/-- Indexing into a tiled copy of a 12-entry cycle wraps modulo 12. -/
lemma flatten_replicate_getD (c : List (Option ℚ)) (hL : c.length = 12) :
    ∀ (r i : ℕ), i < 12 * r →
      (List.replicate r c).flatten.getD i none = c.getD (i % 12) none := by
  intro r
  induction r with
  | zero => intro i hi; omega
  | succ r ih =>
      intro i hi
      rw [List.replicate_succ, List.flatten_cons]
      by_cases h : i < 12
      · rw [List.getD_append _ _ _ _ (by omega), Nat.mod_eq_of_lt h]
      · rw [List.getD_append_right _ _ _ _ (by omega), hL,
          Nat.mod_eq_sub_mod (by omega)]
        exact ih (i - 12) (by omega)

/-- The anomaly series has exactly the target's length: the tiled climatology
is long enough and the truncation is exact. -/
lemma anomsData_length (t c : List (Option ℚ)) (hL : c.length = 12) :
    (anomsData t c).length = t.length := by
  unfold anomsData tileClim
  have hlen : (List.replicate (t.length / 12 + 1) c).flatten.length
      = (t.length / 12 + 1) * 12 := by
    rw [List.length_flatten, List.map_replicate, hL, List.sum_replicate, smul_eq_mul]
  have hge : t.length ≤ (t.length / 12 + 1) * 12 := by
    have := Nat.div_add_mod t.length 12
    have := Nat.mod_lt t.length (show 0 < 12 by norm_num)
    omega
  rw [List.length_zipWith, List.length_take, hlen]
  omega

/-- C2: when a 12-entry climatology is tiled across a longer target series and
truncated to the target length, the climatology value subtracted at target
index `i` is the cycle entry at position `i % 12`. -/
theorem tiling_aligns_mod_12 (t c : List (Option ℚ)) (hL : c.length = 12) :
    (anomsData t c).length = t.length ∧
    ∀ i, i < t.length →
      (anomsData t c).getD i none =
        maskedSub (t.getD i none) (c.getD (i % 12) none) := by
  refine ⟨anomsData_length t c hL, fun i hi => ?_⟩
  have hlen : (tileClim c t.length).length = (t.length / 12 + 1) * 12 := by
    unfold tileClim
    rw [List.length_flatten, List.map_replicate, hL, List.sum_replicate, smul_eq_mul]
  have hge : t.length ≤ (t.length / 12 + 1) * 12 := by
    have := Nat.div_add_mod t.length 12
    have := Nat.mod_lt t.length (show 0 < 12 by norm_num)
    omega
  have hia : i < (anomsData t c).length := by rw [anomsData_length t c hL]; exact hi
  have hit : i < ((tileClim c t.length).take t.length).length := by
    rw [List.length_take, hlen]; omega
  have hitile : i < (tileClim c t.length).length := by rw [hlen]; omega
  have htake : ((tileClim c t.length).take t.length).getD i none
      = (tileClim c t.length).getD i none := by
    rw [List.getD_eq_getElem _ _ hit, List.getD_eq_getElem _ _ hitile]
    exact List.getElem_take ..
  rw [List.getD_eq_getElem _ _ hia, List.getD_eq_getElem _ _ hi]
  unfold anomsData
  rw [List.getElem_zipWith]
  congr 1
  rw [← List.getD_eq_getElem _ none, htake]
  exact flatten_replicate_getD c hL _ i (by omega)

/-- Witness for C2: tiling a 12-entry climatology across a 30-entry target. -/
theorem tiling_aligns_mod_12_witness :
    (anomsData exTarget30 exClim12).length = exTarget30.length ∧
    (anomsData exTarget30 exClim12).getD 13 none =
      maskedSub (exTarget30.getD 13 none) (exClim12.getD (13 % 12) none) :=
  ⟨(tiling_aligns_mod_12 exTarget30 exClim12 (by decide)).1,
   (tiling_aligns_mod_12 exTarget30 exClim12 (by decide)).2 13 (by decide)⟩

/-!
## C6: masked entries excluded from sum and count
-/

/-- Sentinel masking leaves a list of strictly-above-threshold values
untouched after dropping the mask wrappers. -/
lemma maskSentinel_filterMap (t : ℚ) (l : List ℚ) (h : ∀ x ∈ l, ¬ x ≤ t) :
    (maskSentinel t l).filterMap id = l := by
  induction l with
  | nil => rfl
  | cons a l ih =>
      have ha : ¬ a ≤ t := h a (by simp)
      have ih2 := ih fun x hx => h x (by simp [hx])
      unfold maskSentinel at ih2 ⊢
      simp [ha, ih2]

/-- C6: averaging five samples of which one is the sentinel `-999.0` (masked)
yields the mean over the remaining four with a coverage count of 4 — the
masked entry contributes to neither the sum nor the count. -/
theorem masked_excluded_from_sum_and_count
    (pre post : List ℚ) (hlen : pre.length + post.length = 4)
    (hall : ∀ x ∈ pre ++ post, -999 < x) :
    maMean (maskSentinel (-999) (pre ++ -999 :: post)) =
      some ((pre ++ post).sum / 4) ∧
    maCount (maskSentinel (-999) (pre ++ -999 :: post)) = 4 := by
  have hsplit : (maskSentinel (-999) (pre ++ -999 :: post)).filterMap id
      = pre ++ post := by
    have h1 := maskSentinel_filterMap (-999) pre
      (fun x hx => not_le.mpr (hall x (by simp [hx])))
    have h2 := maskSentinel_filterMap (-999) post
      (fun x hx => not_le.mpr (hall x (by simp [hx])))
    unfold maskSentinel at h1 h2 ⊢
    simp only [List.map_append, List.map_cons, if_pos (le_refl (-999 : ℚ)),
      List.filterMap_append]
    simp [h1, h2]
  have hcount : maCount (maskSentinel (-999) (pre ++ -999 :: post)) = 4 := by
    unfold maCount
    rw [hsplit, List.length_append, hlen]
  refine ⟨?_, hcount⟩
  unfold maMean maSum
  rw [hcount, hsplit, if_neg (by norm_num)]
  norm_num

/-- Witness for C6 at the samples `[1, 2, -999, 3, 4]`. -/
theorem masked_excluded_from_sum_and_count_witness :
    maMean (maskSentinel (-999) ([1, 2] ++ -999 :: [3, 4])) =
      some ((([1, 2] ++ [3, 4] : List ℚ)).sum / 4) ∧
    maCount (maskSentinel (-999) ([1, 2] ++ -999 :: [3, 4])) = 4 :=
  masked_excluded_from_sum_and_count [1, 2] [3, 4] (by decide)
    (by intro x hx; fin_cases hx <;> norm_num)

/-!
## C4: grid dump token count and shape
-/

/-- Counterexample to C4 as stated: a two-line dump whose total token count
(6) does not fill the declared 3 x 3 shape parses without any error — the
missing band is silently left zero-filled (and the zeros are not masked,
since `0 > -999`) — rather than raising a format error. -/
theorem grid_token_mismatch_counterexample :
    tokenCount (exGridDumpMissingRow.drop 4) = 6 ∧ (6 : ℕ) ≠ 3 * 3 ∧
    (parseGridDump 3 3 4 exGridDumpMissingRow).toOption =
      some [[some 1, some 2, some 3], [some 4, some 5, some 6],
        [some 0, some 0, some 0]] := by
  decide

/-- The band-accumulation loop preserves the preallocated shape. -/
lemma fillGrid_shape (nlat nlon : ℕ) :
    ∀ (rows data : List (List ℚ)) (acc : List ℚ) (tl : ℕ) (g : List (List ℚ)),
      data.length = nlat → (∀ r ∈ data, r.length = nlon) →
      fillGrid nlat nlon rows data acc tl = .ok g →
      g.length = nlat ∧ ∀ r ∈ g, r.length = nlon := by
  intro rows
  induction rows with
  | nil =>
      intro data acc tl g h1 h2 hf
      unfold fillGrid at hf
      cases hf
      exact ⟨h1, h2⟩
  | cons row rest ih =>
      intro data acc tl g h1 h2 hf
      unfold fillGrid at hf
      by_cases hc : (acc ++ row).length = nlon
      · rw [if_pos hc] at hf
        by_cases ht : tl < nlat
        · rw [if_pos ht] at hf
          refine ih _ _ _ _ ?_ ?_ hf
          · rw [List.length_set]; exact h1
          · intro r hr
            rcases List.mem_or_eq_of_mem_set hr with h | h
            · exact h2 r h
            · rw [h]; exact hc
        · rw [if_neg ht] at hf
          exact absurd hf (by simp)
      · rw [if_neg hc] at hf
        exact ih _ _ _ _ h1 h2 hf

/-- C4 amended: a token deficit that leaves the dump's lines ragged (e.g. one
fewer token than required, on the final line) is rejected, because
`np.genfromtxt` requires rectangular rows; but a deficit of whole lines is
not an error (the unfilled bands stay zero-filled, see the counterexample);
and every successfully parsed grid has exactly the declared
`(n_lat, n_lon)` shape. -/
theorem grid_parse_shape_amended :
    (parseGridDump 2 3 4 exGridDumpOneShort).toOption = none ∧
    ∀ (nlat nlon s : ℕ) (lines : List (List ℚ)) (g : List (List (Option ℚ))),
      parseGridDump nlat nlon s lines = .ok g →
      g.length = nlat ∧ ∀ r ∈ g, r.length = nlon := by
  refine ⟨by decide, ?_⟩
  intro nlat nlon s lines g hp
  unfold parseGridDump at hp
  cases hg : genfromtxt lines s 0 with
  | error e => rw [hg] at hp; exact absurd hp (by simp [Except.bind])
  | ok arr =>
      rw [hg] at hp
      simp only [Except.bind] at hp
      cases hr : gridRowsOf arr with
      | error e => rw [hr] at hp; exact absurd hp (by simp [Except.bind])
      | ok rows =>
      rw [hr] at hp
      simp only [Except.bind] at hp
      cases hf : fillGrid nlat nlon rows (zerosGrid nlat nlon) [] 0 with
      | error e => rw [hf] at hp; exact absurd hp (by simp [Except.map])
      | ok data =>
          rw [hf] at hp
          simp only [Except.map] at hp
          cases hp
          have hz1 : (zerosGrid nlat nlon).length = nlat := by
            unfold zerosGrid; exact List.length_replicate ..
          have hz2 : ∀ r ∈ zerosGrid nlat nlon, r.length = nlon := by
            intro r hr
            unfold zerosGrid at hr
            rw [List.eq_of_mem_replicate hr]
            exact List.length_replicate ..
          obtain ⟨hd1, hd2⟩ := fillGrid_shape nlat nlon rows _ [] 0 data hz1 hz2 hf
          constructor
          · rw [List.length_map]; exact hd1
          · intro r hr
            obtain ⟨r0, hr0, hrr⟩ := List.mem_map.mp hr
            rw [← hrr]
            unfold maskSentinel
            rw [List.length_map]
            exact hd2 r0 hr0

/-- Witness for C4 amended at a valid 2 x 3 dump. -/
theorem grid_parse_shape_amended_witness :
    ((parseGridDump 2 3 4 exGridDumpFull).toOption.getD []).length = 2 ∧
    ∀ r ∈ (parseGridDump 2 3 4 exGridDumpFull).toOption.getD [], r.length = 3 :=
  grid_parse_shape_amended.2 2 3 4 exGridDumpFull
    ((parseGridDump 2 3 4 exGridDumpFull).toOption.getD []) rfl

/-!
## C5 and C7: monthly block parsing
-/

/-- C5: when the extracted `(year, month)` headers are non-monotonic in time
(their day offsets from the first block are not strictly increasing), the
parse of a structurally well-formed file is rejected with a format error
rather than re-sorted.  The rejection itself lives in the spec-modelled
`make_iris_cube_3d`; the day-offset computation is src/slp.py line 90. -/
theorem hadslp_nonmonotonic_rejected
    (lines : List (List ℤ)) (hdrs : List (ℤ × ℤ))
    (blocks arr : List (List (List ℤ)))
    (hp : parseBlocks lines = .ok (hdrs, blocks))
    (ha : astype3d blocks = .ok arr)
    (hmono : strictIncrZ (blockTimes hdrs) = false) :
    read_hadslp lines = .error "FormatError" := by
  unfold read_hadslp
  rw [hp]
  simp only [Except.bind]
  rw [ha]
  simp only [make_iris_cube_3d, hmono]
  rfl

/-- Witness for C5: the out-of-order two-block input is rejected. -/
theorem hadslp_nonmonotonic_rejected_witness :
    read_hadslp exHadslpBad = .error "FormatError" :=
  hadslp_nonmonotonic_rejected exHadslpBad
    [(2016, 1), (2015, 12)]
    [[[101, 102, 103], [104, 105, 106]], [[201, 202, 203], [204, 205, 206]]]
    [[[101, 102, 103], [104, 105, 106]], [[201, 202, 203], [204, 205, 206]]]
    rfl rfl rfl

/-- C7: block timestamps are integer day offsets from the first block's
`(year, month)` epoch by calendar arithmetic: the two-block input with
headers `(2015, 12)` and `(2016, 1)` yields a series of length 2 with
day offsets `[0, 31]` (December has 31 days, not a fixed 30). -/
theorem hadslp_day_offsets_calendar :
    (read_hadslp exHadslpGood).toOption.map (fun s => (s.times, s.data.length)) =
      some ([0, 31], 2) := by
  rfl

/-- The day arithmetic accounts for variable month lengths and leap years:
February 2016 (a leap year) spans 29 days, February 2015 spans 28, and
neither is the fixed 30-day approximation. -/
theorem dateOrdinal_variable_month_lengths :
    dateOrdinal 2016 1 - dateOrdinal 2015 12 = 31 ∧
    dateOrdinal 2016 3 - dateOrdinal 2016 2 = 29 ∧
    dateOrdinal 2015 3 - dateOrdinal 2015 2 = 28 := by
  refine ⟨?_, ?_, ?_⟩ <;> rfl

/-!
## C8: SOI footer-trim recovery
-/

/-- Counterexample to C8 as stated: the retry is a blanket catch, not limited
to an incomplete final row.  On an input whose final row has MORE columns
than the prior rows, strict parsing fails, yet the footer-trim retry is
still applied — and even succeeds. -/
theorem soi_retry_blanket_counterexample :
    (genfromtxt exSoiExtraCol 9 0).toOption = none ∧
    ((exSoiExtraCol.drop 9).getLastD []).length >
      ((exSoiExtraCol.drop 9).getD 0 []).length ∧
    (read_soi exSoiExtraCol).toOption.isSome = true := by
  decide

/-- Flattening the data columns of `n` rows of `c` columns each yields
`n * (c - 1)` entries. -/
lemma flatten_drop_one_length (c : ℕ) :
    ∀ (l : List (List ℚ)), (∀ r ∈ l, r.length = c) →
      (l.map (fun r => r.drop 1)).flatten.length = l.length * (c - 1) := by
  intro l
  induction l with
  | nil => intro _; simp
  | cons r t ih =>
      intro h
      rw [List.map_cons, List.flatten_cons, List.length_append,
        List.length_drop, h r (by simp), ih fun x hx => h x (by simp [hx]),
        List.length_cons]
      ring

/-- C8 amended: if strict parsing fails — notably because the final row is
incomplete (fewer columns than the uniform prior rows) — the parser retries
once excluding the final row instead of raising, and for an `N`-row file with
`N ≥ 3` (at least two complete rows, of at least two columns, survive the
trim, keeping the retried array 2-D) the result holds exactly `(N-1)` rows'
worth of entries.  The retry is the only automatic recovery, but it is
applied on any strict-parse failure, not only on an incomplete final row
(see the counterexample); and at `N = 2` the retry leaves a single row,
numpy squeezes it to 1-D and the uncaught `IndexError` at `all_data[:, 0]`
ends the parse. -/
theorem soi_footer_retry_amended
    (lines init : List (List ℚ)) (lastRow : List ℚ) (c : ℕ)
    (hbody : lines.drop 9 = init ++ [lastRow])
    (hn2 : 2 ≤ init.length)
    (hc2 : 2 ≤ c)
    (hcols : ∀ r ∈ init, r.length = c)
    (hshort : lastRow.length < c) :
    read_soi lines = .ok (soiFrom init) ∧
    (soiFrom init).data.length = init.length * (c - 1) := by
  obtain ⟨r0, r1, t, rfl⟩ : ∃ r0 r1 t, init = r0 :: r1 :: t := by
    cases init with
    | nil => simp at hn2
    | cons a b =>
        cases b with
        | nil => simp at hn2
        | cons a2 b2 => exact ⟨a, a2, b2, rfl⟩
  have hr0 : r0.length = c := hcols r0 (by simp)
  have hstrict : genfromtxt lines 9 0 = .error "ValueError" := by
    unfold genfromtxt
    rw [hbody]
    rw [Nat.sub_zero, List.take_length, List.cons_append]
    simp only [rectCheck]
    rw [if_neg ?_]
    · rfl
    intro hall
    have h2 := (List.all_eq_true.mp hall) lastRow (by simp)
    rw [hr0] at h2
    simp only [decide_eq_true_eq] at h2
    omega
  have hrect : rectCheck ((lines.drop 9).take ((lines.drop 9).length - 1))
      = .ok (r0 :: r1 :: t) := by
    rw [hbody]
    have hlen : ((r0 :: r1 :: t ++ [lastRow]).length - 1)
        = (r0 :: r1 :: t).length := by
      simp
    rw [hlen, List.take_left]
    simp only [rectCheck]
    rw [if_pos ?_]
    rw [List.all_eq_true]
    intro r hr
    rw [hcols r hr, hr0]
    simp
  have hsq : npSqueeze (r0 :: r1 :: t) = .twoD (r0 :: r1 :: t) := by
    simp only [npSqueeze]
    rw [if_neg ?_]
    intro hall
    have h2 := (List.all_eq_true.mp hall) r0 (by simp)
    simp only [decide_eq_true_eq] at h2
    omega
  have hretry : genfromtxt lines 9 1 = .ok (NpArray.twoD (r0 :: r1 :: t)) := by
    unfold genfromtxt
    rw [hrect]
    simp only [Except.map]
    rw [hsq]
  constructor
  · unfold read_soi
    rw [hstrict, hretry]
  · exact flatten_drop_one_length c (r0 :: r1 :: t) hcols

/-- Witness for C8 amended: a 3-row file with an incomplete final row parses
via the footer-trim retry into two rows' worth (24) of entries. -/
theorem soi_footer_retry_amended_witness :
    read_soi exSoiShortFooter =
      .ok (soiFrom [[1990, 1, 2, 3, 4, 5, 6, 7, 8, 9, 10, 11, 12],
        [1991, 13, 14, 15, 16, 17, 18, 19, 20, 21, 22, 23, 24]]) ∧
    (soiFrom [[1990, 1, 2, 3, 4, 5, 6, 7, 8, 9, 10, 11, 12],
      [1991, 13, 14, 15, 16, 17, 18, 19, 20, 21, 22, 23, 24]]).data.length
      = 2 * (13 - 1) :=
  soi_footer_retry_amended exSoiShortFooter
    [[1990, 1, 2, 3, 4, 5, 6, 7, 8, 9, 10, 11, 12],
     [1991, 13, 14, 15, 16, 17, 18, 19, 20, 21, 22, 23, 24]]
    [1992, 25, 26, 27, 28, 29, 30] 13 rfl (by decide) (by decide) (by decide)
    (by decide)

/-!
## C10: SOI time axis vs values
-/

/-- `getLastD` of a mapped range is the function at `n - 1`. -/
lemma getLastD_range_map {α : Type} (f : ℕ → α) (n : ℕ) (d : α) (hn : 0 < n) :
    ((List.range n).map f).getLastD d = f (n - 1) := by
  obtain ⟨m, rfl⟩ : ∃ m, n = m + 1 := ⟨n - 1, by omega⟩
  rw [List.getLastD_eq_getLast?, List.range_succ, List.map_append]
  rw [show List.map f [m] = [f m] from rfl, List.getLast?_concat]
  rfl

/-- Length of the SOI time axis over an `n`-year span starting at `y0`. -/
lemma arangeQ_span_length (y0 : ℚ) (n : ℕ) (hn : 0 < n) :
    (arangeQ y0 (y0 + ((n - 1 : ℕ) : ℚ) + 1) (1 / 12)).length = 12 * n := by
  unfold arangeQ
  rw [List.length_map, List.length_range]
  have hcast : ((n - 1 : ℕ) : ℚ) = (n : ℚ) - 1 := by
    rw [Nat.cast_sub hn]; simp
  have h1 : (y0 + ((n - 1 : ℕ) : ℚ) + 1 - y0) / (1 / 12) = ((12 * n : ℕ) : ℚ) := by
    rw [hcast]; push_cast; ring
  rw [h1, Int.ceil_natCast, Int.toNat_ofNat]

/-- `np.arange` with a positive step is strictly increasing. -/
lemma arangeQ_pairwise (start stop step : ℚ) (hs : 0 < step) :
    List.Pairwise (· < ·) (arangeQ start stop step) := by
  unfold arangeQ
  refine List.Pairwise.map _ ?_ (List.pairwise_lt_range _)
  intro a b hab
  have hab2 : (a : ℚ) < b := by exact_mod_cast hab
  exact add_lt_add_left (mul_lt_mul_of_pos_right hab2 hs) start

/-- C10: the SOI time axis is an arithmetic range from the first to the last
year in steps of 1/12, independent of the rows present, while the values are
the flattened rows.  Under the precondition that the strict parse yields a
2-D array of at least two rows (a single row is squeezed to 1-D and the
indexing raises `IndexError`), the year column is contiguous and rows carry
12 monthly columns, times and values have equal length and the times are
strictly increasing (one entry per month); for an input with a missing year
the two sequences have different lengths (36 times against 24 values). -/
theorem soi_times_values_alignment :
    (∀ (lines rows : List (List ℚ)) (y0 : ℚ),
      genfromtxt lines 9 0 = .ok (NpArray.twoD rows) →
      2 ≤ rows.length →
      (∀ r ∈ rows, r.length = 13) →
      rows.map (fun r => r.getD 0 0) =
        (List.range rows.length).map (fun k : ℕ => y0 + (k : ℚ)) →
      read_soi lines = .ok (soiFrom rows) ∧
        (soiFrom rows).times.length = (soiFrom rows).data.length ∧
        List.Pairwise (· < ·) (soiFrom rows).times) ∧
    (read_soi exSoiGapYear).toOption.map
      (fun ts => (ts.times.length, ts.data.length)) = some (36, 24) := by
  constructor
  · intro lines rows y0 hg hn2 h13 hyears
    have hn : 0 < rows.length := by omega
    refine ⟨?_, ?_, ?_⟩
    · unfold read_soi
      rw [hg]
    · show (soiFrom rows).times.length = (soiFrom rows).data.length
      unfold soiFrom
      simp only
      rw [hyears, getD_range_map _ _ _ _ hn, getLastD_range_map _ _ _ hn]
      rw [show (y0 + ((0 : ℕ) : ℚ)) = y0 by simp]
      rw [arangeQ_span_length y0 rows.length hn]
      rw [flatten_drop_one_length 13 rows h13]
      omega
    · unfold soiFrom
      simp only
      exact arangeQ_pairwise _ _ _ (by norm_num)
  · have h1 : read_soi exSoiGapYear =
        .ok (soiFrom [[1990, 1, 2, 3, 4, 5, 6, 7, 8, 9, 10, 11, 12],
          [1992, 13, 14, 15, 16, 17, 18, 19, 20, 21, 22, 23, 24]]) := by
      unfold read_soi
      rw [show genfromtxt exSoiGapYear 9 0 =
        .ok (NpArray.twoD [[1990, 1, 2, 3, 4, 5, 6, 7, 8, 9, 10, 11, 12],
          [1992, 13, 14, 15, 16, 17, 18, 19, 20, 21, 22, 23, 24]]) from rfl]
    rw [h1]
    show some _ = some ((36 : ℕ), (24 : ℕ))
    norm_num [soiFrom, arangeQ, List.getLastD, Int.toNat_ofNat]
    rfl

/-- Witness for C10's contiguity direction at a concrete two-year input. -/
theorem soi_times_values_alignment_witness :
    read_soi exSoiContiguous =
      .ok (soiFrom [[1990, 1, 2, 3, 4, 5, 6, 7, 8, 9, 10, 11, 12],
        [1991, 13, 14, 15, 16, 17, 18, 19, 20, 21, 22, 23, 24]]) ∧
    (soiFrom [[1990, 1, 2, 3, 4, 5, 6, 7, 8, 9, 10, 11, 12],
        [1991, 13, 14, 15, 16, 17, 18, 19, 20, 21, 22, 23, 24]]).times.length =
      (soiFrom [[1990, 1, 2, 3, 4, 5, 6, 7, 8, 9, 10, 11, 12],
        [1991, 13, 14, 15, 16, 17, 18, 19, 20, 21, 22, 23, 24]]).data.length ∧
    List.Pairwise (· < ·)
      (soiFrom [[1990, 1, 2, 3, 4, 5, 6, 7, 8, 9, 10, 11, 12],
        [1991, 13, 14, 15, 16, 17, 18, 19, 20, 21, 22, 23, 24]]).times :=
  soi_times_values_alignment.1 exSoiContiguous
    [[1990, 1, 2, 3, 4, 5, 6, 7, 8, 9, 10, 11, 12],
     [1991, 13, 14, 15, 16, 17, 18, 19, 20, 21, 22, 23, 24]] 1990
    rfl (by decide) (by decide) (by norm_num [List.range_succ])
